import Mathlib

/-!
# ReserBot (`server.js`): request handlers over an external record store

A shallow embedding of the four API routes of `server.js`

* `GET /api/reservas`     (`getReservas`)
* `POST /api/reservas`    (`postReservas`)
* `DELETE /api/reservas/:id` (`deleteReserva`)
* `GET /api/test`         (`getTest`)

The handlers are pure functions of three things they do not control: the
JavaScript runtime (clock, time zone, `Date.parse`, primitive conversion), the
record store behind the `supabase` client, and the request.  Every call a
handler makes on the store is recorded, so that "the insert is never invoked"
is a statement about the recorded calls.
-/

namespace ReserBot

/-! ## JavaScript values -/

/-- A JavaScript Number: NaN, an infinity, or a finite value.  Finite doubles
are rationals; the handlers never distinguish `-0` from `0`. -/
inductive JsNumber where
  | nan
  | infinity (negative : Bool)
  | finite (q : ℚ)

/-- The values a parsed request body, a route parameter or a store reply can
hold.  `undefined` is what reading an absent property gives.  Strings are
well-formed Unicode; their JavaScript length is counted in UTF-16 code units
(`utf16Length`). -/
inductive JsValue where
  | undefined
  | null
  | bool (b : Bool)
  | number (n : JsNumber)
  | string (s : String)
  | array (items : List JsValue)
  | object (props : List (String × JsValue))

/-- The `length` of a JavaScript string: one unit per code point of the Basic
Multilingual Plane, two (a surrogate pair) for every other code point. -/
def utf16Length (s : String) : Nat :=
  (s.data.map fun c => if c.toNat < 65536 then 1 else 2).sum

/-- JavaScript `ToBoolean` on a Number: `0` and `NaN` are falsy. -/
def JsNumber.truthy : JsNumber → Bool
  | .nan => false
  | .infinity _ => true
  | .finite q => decide (q ≠ 0)

/-- JavaScript `ToBoolean`: `undefined`, `null`, `false`, `0`, `NaN` and the
empty string are falsy, everything else (arrays and objects included) is
truthy. -/
def JsValue.truthy : JsValue → Bool
  | .undefined => false
  | .null => false
  | .bool b => b
  | .number n => n.truthy
  | .string s => decide (s ≠ "")
  | .array _ => true
  | .object _ => true

/-- The value thrown by the runtime when a property of `undefined` or `null`
is read, or when an object has no primitive value. -/
def typeError : JsValue := .string "TypeError"

/-- Reading an own property of a plain object: the first entry with that key,
`undefined` when there is none. -/
def lookupProp (props : List (String × JsValue)) (key : String) : JsValue :=
  match props.find? (fun p => p.1 == key) with
  | some p => p.2
  | none => .undefined

/-- The expression `v.length`.  Strings and arrays have their own `length`;
a plain object has one only as an own property; Booleans and Numbers have
none; on `undefined` and `null` the read throws. -/
def lengthOf : JsValue → Except JsValue JsValue
  | .undefined => .error typeError
  | .null => .error typeError
  | .bool _ => .ok .undefined
  | .number _ => .ok .undefined
  | .string s => .ok (.number (.finite (utf16Length s)))
  | .array items => .ok (.number (.finite items.length))
  | .object props => .ok (lookupProp props "length")

/-! ## The runtime -/

/-- What the handlers take from the JavaScript engine and the host.

* `now`: the time value (milliseconds since the epoch, UTC) read by
  `new Date()`; the clock and the local midnight derived from it lie well
  inside the time-value range, so `TimeClip` is the identity on them.
* `localTZA t isUTC`: the local time zone adjustment in milliseconds (local
  time minus UTC) at `t`, as in ECMAScript `LocalTZA`.
* `parseFallback`: `Date.parse` on every string that is not a date-only
  `YYYY-MM-DD` form (date-time forms and the implementation-defined
  formats); `none` is `NaN`.
* `stringToNumber`: ECMAScript `StringToNumber`.
* `toPrimitive`: `ToPrimitive` on an array or a plain object, which yields a
  string or throws. -/
structure Runtime where
  now : Int
  localTZA : Int → Bool → Int
  parseFallback : String → Option Int
  stringToNumber : String → JsNumber
  toPrimitive : JsValue → Except JsValue String

/-- ECMAScript `ToNumber`. -/
def toNumber (rt : Runtime) : JsValue → Except JsValue JsNumber
  | .undefined => .ok .nan
  | .null => .ok (.finite 0)
  | .bool b => .ok (.finite (if b then 1 else 0))
  | .number n => .ok n
  | .string s => .ok (rt.stringToNumber s)
  | .array items =>
    match rt.toPrimitive (.array items) with
    | .ok s => .ok (rt.stringToNumber s)
    | .error e => .error e
  | .object props =>
    match rt.toPrimitive (.object props) with
    | .ok s => .ok (rt.stringToNumber s)
    | .error e => .error e

/-- The Number comparison `a < b`; any comparison with `NaN` is false. -/
def JsNumber.lt : JsNumber → JsNumber → Bool
  | .nan, _ => false
  | _, .nan => false
  | .infinity true, .infinity true => false
  | .infinity true, _ => true
  | .infinity false, _ => false
  | .finite _, .infinity negative => !negative
  | .finite a, .finite b => decide (a < b)

/-- The expression `v < 3` (the right operand is a Number, so the left one is
converted with `ToNumber`). -/
def lessThanThree (rt : Runtime) (v : JsValue) : Except JsValue Bool :=
  match toNumber rt v with
  | .ok n => .ok (n.lt (.finite 3))
  | .error e => .error e

/-! ## Dates -/

/-- Milliseconds in a day (ECMAScript `msPerDay`). -/
def msPerDay : Int := 86400000

/-- The value of a decimal digit. -/
def digitValue (c : Char) : Option Nat :=
  if c.isDigit then some (c.toNat - 48) else none

/-- Leap years of the proleptic Gregorian calendar. -/
def isLeapYear (y : Nat) : Bool :=
  (y % 4 == 0 && y % 100 != 0) || y % 400 == 0

/-- Number of days of month `m` (1 to 12) of year `y`; `0` for no month. -/
def daysInMonth (y m : Nat) : Nat :=
  match m with
  | 1 => 31
  | 2 => if isLeapYear y then 29 else 28
  | 3 => 31
  | 4 => 30
  | 5 => 31
  | 6 => 30
  | 7 => 31
  | 8 => 31
  | 9 => 30
  | 10 => 31
  | 11 => 30
  | 12 => 31
  | _ => 0

/-- ECMAScript `DayFromYear`: the day number of 1 January of year `y`. -/
def dayFromYear (y : Int) : Int :=
  365 * (y - 1970) + (y - 1969) / 4 - (y - 1901) / 100 + (y - 1601) / 400

/-- Days of year `y` that come before month `m`. -/
def daysBeforeMonth (y m : Nat) : Nat :=
  ((List.range (m - 1)).map fun i => daysInMonth y (i + 1)).sum

/-- ECMAScript `MakeDay` for a calendar date: days since 1 January 1970. -/
def makeDay (y m d : Nat) : Int :=
  dayFromYear y + daysBeforeMonth y m + (d - 1 : Nat)

/-- `Date.parse` on the date-only form `YYYY-MM-DD` of the ECMAScript date
time string format: midnight UTC of that calendar day.  A string that is not
of this form, or names no calendar day, is not handled here. -/
def parseDateOnly (s : String) : Option Int :=
  match s.data with
  | [y1, y2, y3, y4, '-', m1, m2, '-', d1, d2] =>
    match digitValue y1, digitValue y2, digitValue y3, digitValue y4,
        digitValue m1, digitValue m2, digitValue d1, digitValue d2 with
    | some a, some b, some c, some d, some e, some f, some g, some h =>
      let y := 1000 * a + 100 * b + 10 * c + d
      let m := 10 * e + f
      let day := 10 * g + h
      if 1 ≤ m ∧ m ≤ 12 ∧ 1 ≤ day ∧ day ≤ daysInMonth y m then
        some (makeDay y m day * msPerDay)
      else none
    | _, _, _, _, _, _, _, _ => none
  | _ => none

/-- `Date.parse`: the time value of a string, `none` for `NaN`. -/
def dateParse (rt : Runtime) (s : String) : Option Int :=
  match parseDateOnly s with
  | some t => some t
  | none => rt.parseFallback s

/-- ECMAScript `TimeClip`: a Number as a time value, `none` for `NaN`. -/
def timeClip : JsNumber → Option Int
  | .nan => none
  | .infinity _ => none
  | .finite q => if |q| > 8640000000000000 then none else some (q.num.tdiv q.den)

/-- The time value of `new Date(v)`, `none` for an Invalid Date.  A string is
parsed; an array or object is first converted to a string; every other value
is converted to a Number. -/
def newDate (rt : Runtime) : JsValue → Except JsValue (Option Int)
  | .string s => .ok (dateParse rt s)
  | .array items =>
    match rt.toPrimitive (.array items) with
    | .ok s => .ok (dateParse rt s)
    | .error e => .error e
  | .object props =>
    match rt.toPrimitive (.object props) with
    | .ok s => .ok (dateParse rt s)
    | .error e => .error e
  | v =>
    match toNumber rt v with
    | .ok n => .ok (timeClip n)
    | .error e => .error e

/-- The local calendar day of the clock reading: `Day(LocalTime(now))`. -/
def localDay (rt : Runtime) : Int :=
  (rt.now + rt.localTZA rt.now true) / msPerDay

/-- The time value of `hoy` after `hoy.setHours(0, 0, 0, 0)`: midnight, in
local time, of the local calendar day of the clock reading. -/
def hoy (rt : Runtime) : Int :=
  let date := localDay rt * msPerDay
  date - rt.localTZA date false

/-- The comparison `a < b` of two Date objects: their time values are
compared as Numbers, so an Invalid Date is less than nothing. -/
def dateLt : Option Int → Option Int → Bool
  | some a, some b => decide (a < b)
  | _, _ => false

/-! ## The record store -/

/-- The error object of a store reply (`PostgrestError`); the handlers read
only its `message`. -/
structure StoreError where
  message : String

/-- What an awaited store call resolves to.  The handlers destructure `data`
(`null` or an array of rows) and `error` (`null` or an error object); the
`count` the store reports next to them is never read. -/
structure StoreReply where
  data : Option (List JsValue)
  error : Option StoreError
  count : Option Nat

/-- An awaited store call either resolves to a reply or rejects, which throws
`reason` inside the handler. -/
inductive StoreOutcome where
  | resolved (reply : StoreReply)
  | rejected (reason : JsValue)

/-- The four calls the handlers build on the `supabase` client.

* `selectOrdered t c o a`: `from(t).select(c).order(o, { ascending: a })`
* `insertSelect t rows`: `from(t).insert(rows).select()`
* `deleteEq t c v`: `from(t).delete().eq(c, v)`
* `selectCounted t c m`: `from(t).select(c, { count: m })` -/
inductive Query where
  | selectOrdered (table columns orderBy : String) (ascending : Bool)
  | insertSelect (table : String) (rows : List JsValue)
  | deleteEq (table column : String) (value : JsValue)
  | selectCounted (table columns countMode : String)

/-- The record store as the handlers see it: an answer to every call. -/
abbrev Store := Query → StoreOutcome

/-! ## Requests and responses -/

/-- The part of an Express request the handlers read: the body as the
`express.json` and `express.urlencoded` parsers leave it in `req.body` (an
object; an absent property reads as `undefined`) and the route parameters. -/
structure Request where
  body : List (String × JsValue)
  params : List (String × JsValue)

/-- The response a handler sends: the status (200 unless `res.status` was
called) and the object handed to `res.json`. -/
structure Response where
  status : Nat
  body : JsValue

/-- A handled request: the response sent and the store calls made, in order. -/
structure Handled where
  response : Response
  calls : List Query

/-- The object `{ error: message }`. -/
def errorBody (message : String) : JsValue :=
  .object [("error", .string message)]

/-- The response of every `catch` block:
`res.status(500).json({ error: 'Error interno del servidor' })`. -/
def internalError : Response :=
  { status := 500, body := errorBody "Error interno del servidor" }

/-- Rejection of the first check of the create handler. -/
def camposObligatorios : Response :=
  { status := 400, body := errorBody "Todos los campos son obligatorios" }

/-- Rejection of the second check of the create handler. -/
def nombreCorto : Response :=
  { status := 400, body := errorBody "El nombre debe tener al menos 3 caracteres" }

/-- Rejection of the third check of the create handler. -/
def fechaPasada : Response :=
  { status := 400, body := errorBody "No puedes hacer reservas en fechas pasadas" }

/-- The value of a `data` that is `null` or an array. -/
def dataValue : Option (List JsValue) → JsValue
  | none => .null
  | some rows => .array rows

/-- Closing a `try` block: a thrown value is caught and answered with the
fixed `internalError`; the store calls made before it stay made. -/
def catchAll (r : List Query × Except JsValue Response) : Handled :=
  match r.2 with
  | .ok response => { response := response, calls := r.1 }
  | .error _ => { response := internalError, calls := r.1 }

/-! ## `GET /api/reservas` -/

/-- The call of the list handler. -/
def listQuery : Query := .selectOrdered "reservas" "*" "fecha" true

/-- The `try` block of the list handler. -/
def getReservasTry (store : Store) : List Query × Except JsValue Response :=
  match store listQuery with
  | .rejected reason => ([listQuery], .error reason)
  | .resolved reply =>
    match reply.error with
    | some error => ([listQuery], .ok { status := 400, body := errorBody error.message })
    | none =>
      ([listQuery],
        .ok { status := 200,
              body := .object [("success", .bool true), ("data", dataValue reply.data)] })

/-- The handler of `GET /api/reservas`. -/
def getReservas (store : Store) : Handled :=
  catchAll (getReservasTry store)

/-! ## `POST /api/reservas` -/

/-- The row `{ nombre, fecha, hora, servicio }` submitted for insertion. -/
def nuevaReserva (nombre fecha hora servicio : JsValue) : JsValue :=
  .object [("nombre", nombre), ("fecha", fecha), ("hora", hora), ("servicio", servicio)]

/-- The call of the create handler. -/
def insertQuery (nombre fecha hora servicio : JsValue) : Query :=
  .insertSelect "reservas" [nuevaReserva nombre fecha hora servicio]

/-- The expression `data[0]`: throws on `null`, `undefined` past the end. -/
def firstRow : Option (List JsValue) → Except JsValue JsValue
  | none => .error typeError
  | some [] => .ok .undefined
  | some (row :: _) => .ok row

/-- The part of the create handler after validation: the insert and the
mapping of its outcome. -/
def insertarReserva (store : Store) (nombre fecha hora servicio : JsValue) :
    List Query × Except JsValue Response :=
  let q := insertQuery nombre fecha hora servicio
  match store q with
  | .rejected reason => ([q], .error reason)
  | .resolved reply =>
    match reply.error with
    | some error => ([q], .ok { status := 400, body := errorBody error.message })
    | none =>
      match firstRow reply.data with
      | .error e => ([q], .error e)
      | .ok row =>
        ([q],
          .ok { status := 201,
                body := .object [("success", .bool true),
                  ("message", .string "Reserva creada exitosamente"),
                  ("data", row)] })

/-- The `try` block of the create handler. -/
def postReservasTry (rt : Runtime) (store : Store) (req : Request) :
    List Query × Except JsValue Response :=
  let nombre := lookupProp req.body "nombre"
  let fecha := lookupProp req.body "fecha"
  let hora := lookupProp req.body "hora"
  let servicio := lookupProp req.body "servicio"
  if !nombre.truthy || !fecha.truthy || !hora.truthy || !servicio.truthy then
    ([], .ok camposObligatorios)
  else
    match (lengthOf nombre).bind (lessThanThree rt) with
    | .error e => ([], .error e)
    | .ok true => ([], .ok nombreCorto)
    | .ok false =>
      match newDate rt fecha with
      | .error e => ([], .error e)
      | .ok fechaReserva =>
        if dateLt fechaReserva (some (hoy rt)) then
          ([], .ok fechaPasada)
        else
          insertarReserva store nombre fecha hora servicio

/-- The handler of `POST /api/reservas`. -/
def postReservas (rt : Runtime) (store : Store) (req : Request) : Handled :=
  catchAll (postReservasTry rt store req)

/-! ## `DELETE /api/reservas/:id` -/

/-- The call of the delete handler for the route parameter `id`. -/
def deleteQuery (id : JsValue) : Query := .deleteEq "reservas" "id" id

/-- The `try` block of the delete handler. -/
def deleteReservaTry (store : Store) (req : Request) : List Query × Except JsValue Response :=
  let id := lookupProp req.params "id"
  match store (deleteQuery id) with
  | .rejected reason => ([deleteQuery id], .error reason)
  | .resolved reply =>
    match reply.error with
    | some error => ([deleteQuery id], .ok { status := 400, body := errorBody error.message })
    | none =>
      ([deleteQuery id],
        .ok { status := 200,
              body := .object [("success", .bool true),
                ("message", .string "Reserva eliminada exitosamente")] })

/-- The handler of `DELETE /api/reservas/:id`. -/
def deleteReserva (store : Store) (req : Request) : Handled :=
  catchAll (deleteReservaTry store req)

/-! ## `GET /api/test` -/

/-- The call of the connectivity probe. -/
def countQuery : Query := .selectCounted "reservas" "count" "exact"

/-- The expression `data.length`: throws on `null`. -/
def dataLength : Option (List JsValue) → Except JsValue Nat
  | none => .error typeError
  | some rows => .ok rows.length

/-- The `try` block of the connectivity probe. -/
def getTestTry (store : Store) : List Query × Except JsValue Response :=
  match store countQuery with
  | .rejected reason => ([countQuery], .error reason)
  | .resolved reply =>
    match reply.error with
    | some error =>
      ([countQuery],
        .ok { status := 400,
              body := .object [("error", .string "Error de conexión con Supabase"),
                ("details", .string error.message)] })
    | none =>
      match dataLength reply.data with
      | .error e => ([countQuery], .error e)
      | .ok n =>
        ([countQuery],
          .ok { status := 200,
                body := .object [("success", .bool true),
                  ("message", .string "Conexión con Supabase exitosa"),
                  ("totalReservas", .number (.finite n))] })

/-- The handler of `GET /api/test`. -/
def getTest (store : Store) : Handled :=
  catchAll (getTestTry store)

/-! ## The three checks of the create handler, as the handler evaluates them -/

/-- Check 1 passes: the handler's first condition
`!nombre || !fecha || !hora || !servicio` is false. -/
def camposPresentes (req : Request) : Bool :=
  (lookupProp req.body "nombre").truthy && (lookupProp req.body "fecha").truthy &&
    (lookupProp req.body "hora").truthy && (lookupProp req.body "servicio").truthy

/-- The condition of check 2, `nombre.length < 3`: `ok true` rejects,
`ok false` passes, `error` is a throw. -/
def nombreMenorQueTres (rt : Runtime) (req : Request) : Except JsValue Bool :=
  (lengthOf (lookupProp req.body "nombre")).bind (lessThanThree rt)

/-- The condition of check 3, `fechaReserva < hoy`: `ok true` rejects,
`ok false` passes, `error` is a throw. -/
def fechaAntesDeHoy (rt : Runtime) (req : Request) : Except JsValue Bool :=
  match newDate rt (lookupProp req.body "fecha") with
  | .ok fechaReserva => .ok (dateLt fechaReserva (some (hoy rt)))
  | .error e => .error e

/-- The insert the create handler makes for a request. -/
def insertDe (req : Request) : Query :=
  insertQuery (lookupProp req.body "nombre") (lookupProp req.body "fecha")
    (lookupProp req.body "hora") (lookupProp req.body "servicio")

/-- Reading a property of a value that is an object; `undefined` on any
other value. -/
def JsValue.get (v : JsValue) (key : String) : JsValue :=
  match v with
  | .object props => lookupProp props key
  | _ => .undefined

/-! ## Sample runtime, store and requests -/

/-- A runtime with a fixed clock reading and a fixed zone offset, whose
`Date.parse` knows the date-only form alone. -/
def runtimeFijo (now offset : Int) : Runtime :=
  { now := now
    localTZA := fun _ _ => offset
    parseFallback := fun _ => none
    stringToNumber := fun _ => .nan
    toPrimitive := fun _ => .ok "[object Object]" }

/-- A body with the four fields given as strings. -/
def cuerpo (nombre fecha hora servicio : String) : Request :=
  { body := [("nombre", .string nombre), ("fecha", .string fecha),
      ("hora", .string hora), ("servicio", .string servicio)]
    params := [] }

/-- A request without `hora`. -/
def sinHora : Request :=
  { body := [("nombre", .string "Juan Perez"), ("fecha", .string "2099-01-01"),
      ("servicio", .string "Corte")]
    params := [] }

/-- A request with the two-character name 'Al' and no `hora`. -/
def alSinHora : Request :=
  { body := [("nombre", .string "Al"), ("fecha", .string "2099-01-01"),
      ("servicio", .string "Corte")]
    params := [] }

/-- A store that is unreachable: every call rejects. -/
def storeCaido : Store := fun _ => .rejected (.string "fetch failed")

/-- A store that answers every call with an error object. -/
def storeConError (message : String) : Store :=
  fun _ => .resolved { data := none, error := some { message := message }, count := none }

/-- The key the sample store orders rows by: the day of a date-only `fecha`. -/
def fechaOrden (row : JsValue) : Int :=
  match row.get "fecha" with
  | .string s => (parseDateOnly s).getD 0
  | _ => 0

/-- A row with the identifier the sample store assigns to it. -/
def conId (id : Nat) (row : JsValue) : JsValue :=
  match row with
  | .object props => .object (("id", .number (.finite id)) :: props)
  | v => v

/-- A sample store holding `records` and answering as the PostgREST service
behind the client does: an ordered select returns the records sorted by
`fecha`; an insert returns the inserted rows with their new `id`; a delete
returns no rows; a select of `count` returns the single aggregate row
`[{ count: n }]`, with the exact count next to it. -/
def tablaStore (records : List JsValue) : Store
  | .selectOrdered _ _ _ _ =>
    .resolved
      { data := some (records.insertionSort fun a b => fechaOrden a ≤ fechaOrden b)
        error := none, count := none }
  | .insertSelect _ rows =>
    .resolved { data := some (rows.map (conId (records.length + 1))), error := none, count := none }
  | .deleteEq _ _ _ => .resolved { data := none, error := none, count := none }
  | .selectCounted _ _ _ =>
    .resolved
      { data := some [.object [("count", .number (.finite records.length))]]
        error := none, count := some records.length }

/-- A stored reservation. -/
def reserva (id : Nat) (nombre fecha hora servicio : String) : JsValue :=
  conId id (nuevaReserva (.string nombre) (.string fecha) (.string hora) (.string servicio))

/-- Three stored reservations, not in date order. -/
def tresReservas : List JsValue :=
  [reserva 1 "Juan Perez" "2099-01-03" "10:00" "Corte",
   reserva 2 "Ana Ruiz" "2099-01-01" "11:00" "Tinte",
   reserva 3 "Luis Mora" "2099-01-02" "12:00" "Corte"]

/-- A server five hours west of UTC, read at 10 March 2024, 17:00 UTC, which
is noon of 10 March there. -/
def runtimeOeste : Runtime := runtimeFijo 1710090000000 (-18000000)


/-! ## Shape of the create handler -/

theorem campos_condition (req : Request) :
    (!(lookupProp req.body "nombre").truthy || !(lookupProp req.body "fecha").truthy ||
      !(lookupProp req.body "hora").truthy || !(lookupProp req.body "servicio").truthy)
      = !camposPresentes req := by
  unfold camposPresentes
  cases (lookupProp req.body "nombre").truthy <;> cases (lookupProp req.body "fecha").truthy <;>
    cases (lookupProp req.body "hora").truthy <;> cases (lookupProp req.body "servicio").truthy <;>
    rfl

/-- The `try` block of the create handler, case by case on the three checks. -/
theorem postReservasTry_eq (rt : Runtime) (store : Store) (req : Request) :
    postReservasTry rt store req =
      if camposPresentes req = false then ([], .ok camposObligatorios)
      else match nombreMenorQueTres rt req with
        | .error e => ([], .error e)
        | .ok true => ([], .ok nombreCorto)
        | .ok false =>
          match fechaAntesDeHoy rt req with
          | .error e => ([], .error e)
          | .ok true => ([], .ok fechaPasada)
          | .ok false =>
            insertarReserva store (lookupProp req.body "nombre") (lookupProp req.body "fecha")
              (lookupProp req.body "hora") (lookupProp req.body "servicio") := by
  unfold postReservasTry
  simp only [campos_condition]
  cases hc : camposPresentes req
  · simp
  · simp only [Bool.not_true, Bool.false_eq_true, if_false]
    unfold nombreMenorQueTres fechaAntesDeHoy
    cases h2 : (lengthOf (lookupProp req.body "nombre")).bind (lessThanThree rt) with
    | error e => rfl
    | ok b =>
      cases b
      · simp only
        cases h3 : newDate rt (lookupProp req.body "fecha") with
        | error e => rfl
        | ok f =>
          simp only
          cases dateLt f (some (hoy rt)) <;> simp
      · rfl

/-- Every outcome of the insert step records exactly the one insert. -/
theorem insertarReserva_calls (store : Store) (nombre fecha hora servicio : JsValue) :
    (insertarReserva store nombre fecha hora servicio).1 =
      [insertQuery nombre fecha hora servicio] := by
  unfold insertarReserva
  simp only
  split
  · rfl
  · split
    · rfl
    · split <;> rfl

/-- The falsy values are exactly `undefined`, `null`, `false`, `NaN`, `0` and
the empty string. -/
theorem truthy_eq_false_iff (v : JsValue) :
    v.truthy = false ↔
      v = .undefined ∨ v = .null ∨ v = .bool false ∨ v = .number .nan ∨
        v = .number (.finite 0) ∨ v = .string "" := by
  cases v with
  | undefined => simp [JsValue.truthy]
  | null => simp [JsValue.truthy]
  | bool b => cases b <;> simp [JsValue.truthy]
  | number n => cases n <;> simp [JsValue.truthy, JsNumber.truthy]
  | string s => simp [JsValue.truthy]
  | array items => simp [JsValue.truthy]
  | object props => simp [JsValue.truthy]

/-- The store calls of the create handler are those of its `try` block. -/
theorem postReservas_calls (rt : Runtime) (store : Store) (req : Request) :
    (postReservas rt store req).calls = (postReservasTry rt store req).1 := by
  unfold postReservas catchAll
  cases (postReservasTry rt store req).2 <;> rfl

/-- The insert is the one store call of the create handler exactly when the
three checks pass. -/
theorem insert_sii_validacion (rt : Runtime) (store : Store) (req : Request) :
    (postReservas rt store req).calls = [insertDe req] ↔
      (camposPresentes req = true ∧ nombreMenorQueTres rt req = .ok false ∧
        fechaAntesDeHoy rt req = .ok false) := by
  rw [postReservas_calls, postReservasTry_eq]
  cases h1 : camposPresentes req
  · simp
  · cases h2 : nombreMenorQueTres rt req with
    | error e => simp
    | ok b =>
      cases b
      · cases h3 : fechaAntesDeHoy rt req with
        | error e => simp
        | ok c =>
          cases c
          · simp [insertarReserva_calls, insertDe]
          · simp
      · simp

/-! ## C1: a missing field -/

/-- C1: a create request in which at least one of `nombre`, `fecha`, `hora`,
`servicio` is absent or falsy is answered with status 400 and the reason
'Todos los campos son obligatorios', and no call at all is made on the store,
so no record is inserted. -/
theorem postReservas_campo_falsy (rt : Runtime) (store : Store) (req : Request)
    (h : (lookupProp req.body "nombre").truthy = false ∨
      (lookupProp req.body "fecha").truthy = false ∨
      (lookupProp req.body "hora").truthy = false ∨
      (lookupProp req.body "servicio").truthy = false) :
    (postReservas rt store req).response.status = 400 ∧
      (postReservas rt store req).response.body =
        .object [("error", .string "Todos los campos son obligatorios")] ∧
      (postReservas rt store req).calls = [] := by
  have hc : camposPresentes req = false := by
    unfold camposPresentes
    rcases h with h | h | h | h <;> simp [h]
  simp [postReservas, postReservasTry_eq, hc, catchAll, camposObligatorios, errorBody]

/-- C1 at a request without `hora`. -/
theorem postReservas_campo_falsy_witness :
    (lookupProp sinHora.body "hora").truthy = false ∧
      (postReservas (runtimeFijo 1710090000000 0) storeCaido sinHora).response.status = 400 ∧
      (postReservas (runtimeFijo 1710090000000 0) storeCaido sinHora).response.body =
        .object [("error", .string "Todos los campos son obligatorios")] ∧
      (postReservas (runtimeFijo 1710090000000 0) storeCaido sinHora).calls = [] :=
  ⟨by decide,
    postReservas_campo_falsy (runtimeFijo 1710090000000 0) storeCaido sinHora
      (Or.inr (Or.inr (Or.inl (by decide))))⟩

/-! ## C5: order of the checks -/

/-- C5: the checks are applied in the order (1) four fields truthy, (2)
`nombre.length < 3`, (3) `fechaReserva < hoy`, and the response is the
rejection of the first check that fails: a request failing check 1 gets
'Todos los campos son obligatorios' whatever `nombre` and `fecha` are; one
passing check 1 and failing check 2 gets 'El nombre debe tener al menos 3
caracteres' whatever `fecha` is; one passing checks 1 and 2 and failing check 3
gets 'No puedes hacer reservas en fechas pasadas'.  None of the three makes a
store call, and the insert is made if and only if all three checks pass; it
is then the only call. -/
theorem postReservas_orden_validacion (rt : Runtime) (store : Store) (req : Request) :
    (camposPresentes req = false →
        postReservas rt store req = { response := camposObligatorios, calls := [] }) ∧
      (camposPresentes req = true → nombreMenorQueTres rt req = .ok true →
        postReservas rt store req = { response := nombreCorto, calls := [] }) ∧
      (camposPresentes req = true → nombreMenorQueTres rt req = .ok false →
        fechaAntesDeHoy rt req = .ok true →
        postReservas rt store req = { response := fechaPasada, calls := [] }) ∧
      ((postReservas rt store req).calls = [insertDe req] ↔
        (camposPresentes req = true ∧ nombreMenorQueTres rt req = .ok false ∧
          fechaAntesDeHoy rt req = .ok false)) ∧
      ((postReservas rt store req).calls = [insertDe req] ∨
        (postReservas rt store req).calls = []) := by
  refine ⟨?_, ?_, ?_, insert_sii_validacion rt store req, ?_⟩
  · intro h1
    simp [postReservas, postReservasTry_eq, h1, catchAll]
  · intro h1 h2
    simp [postReservas, postReservasTry_eq, h1, h2, catchAll]
  · intro h1 h2 h3
    simp [postReservas, postReservasTry_eq, h1, h2, h3, catchAll]
  · rw [postReservas_calls, postReservasTry_eq]
    cases h1 : camposPresentes req
    · simp
    · cases h2 : nombreMenorQueTres rt req with
      | error e => simp
      | ok b =>
        cases b
        · cases h3 : fechaAntesDeHoy rt req with
          | error e => simp
          | ok c =>
            cases c
            · simp [insertarReserva_calls, insertDe]
            · simp
        · simp

/-- C5 at four requests on 10 March 2024: short name, past date and no
`hora` (check 1 decides); short name and past date (check 2 decides); past
date alone (check 3 decides); a valid request (the insert is made). -/
theorem postReservas_orden_validacion_witness :
    postReservas (runtimeFijo 1710090000000 0) (tablaStore [])
        { body := [("nombre", .string "Al"), ("fecha", .string "2000-01-01"),
            ("servicio", .string "Corte")], params := [] } =
        { response := camposObligatorios, calls := [] } ∧
      postReservas (runtimeFijo 1710090000000 0) (tablaStore [])
        (cuerpo "Al" "2000-01-01" "10:00" "Corte") =
        { response := nombreCorto, calls := [] } ∧
      postReservas (runtimeFijo 1710090000000 0) (tablaStore [])
        (cuerpo "Juan Perez" "2000-01-01" "10:00" "Corte") =
        { response := fechaPasada, calls := [] } ∧
      (postReservas (runtimeFijo 1710090000000 0) (tablaStore [])
        (cuerpo "Juan Perez" "2099-01-01" "10:00" "Corte")).calls =
        [insertDe (cuerpo "Juan Perez" "2099-01-01" "10:00" "Corte")] :=
  ⟨(postReservas_orden_validacion (runtimeFijo 1710090000000 0) (tablaStore [])
      { body := [("nombre", .string "Al"), ("fecha", .string "2000-01-01"),
          ("servicio", .string "Corte")], params := [] }).1 (by decide),
    (postReservas_orden_validacion (runtimeFijo 1710090000000 0) (tablaStore [])
      (cuerpo "Al" "2000-01-01" "10:00" "Corte")).2.1 (by decide) rfl,
    (postReservas_orden_validacion (runtimeFijo 1710090000000 0) (tablaStore [])
      (cuerpo "Juan Perez" "2000-01-01" "10:00" "Corte")).2.2.1 (by decide) rfl rfl,
    (postReservas_orden_validacion (runtimeFijo 1710090000000 0) (tablaStore [])
      (cuerpo "Juan Perez" "2099-01-01" "10:00" "Corte")).2.2.2.1.2 ⟨by decide, rfl, rfl⟩⟩

/-! ## C2: a short name -/

/-- Check 2 on a string: `nombre.length < 3` compares the number of UTF-16
code units with three. -/
theorem nombreMenorQueTres_string (rt : Runtime) (req : Request) (s : String)
    (hn : lookupProp req.body "nombre" = .string s) :
    nombreMenorQueTres rt req = .ok (decide (utf16Length s < 3)) := by
  unfold nombreMenorQueTres
  rw [hn]
  simp only [lengthOf, Except.bind, lessThanThree, toNumber, JsNumber.lt]
  congr 1
  simp only [decide_eq_decide]
  exact_mod_cast Iff.rfl

/-- C2 as stated fails: the name 'Al' has fewer than 3 characters, but the
request lacks `hora`, and the reason returned is 'Todos los campos son
obligatorios', not 'El nombre debe tener al menos 3 caracteres'. -/
theorem nombre_corto_sin_hora_counterexample :
    lookupProp alSinHora.body "nombre" = .string "Al" ∧ utf16Length "Al" < 3 ∧
      (postReservas (runtimeFijo 1710090000000 0) storeCaido alSinHora).response.body =
        .object [("error", .string "Todos los campos son obligatorios")] ∧
      (postReservas (runtimeFijo 1710090000000 0) storeCaido alSinHora).response.body ≠
        .object [("error", .string "El nombre debe tener al menos 3 caracteres")] := by
  refine ⟨rfl, by decide, rfl, ?_⟩
  have h : (postReservas (runtimeFijo 1710090000000 0) storeCaido alSinHora).response.body =
      .object [("error", .string "Todos los campos son obligatorios")] := rfl
  rw [h]
  intro hne
  simp at hne

/-- C2, amended: a create request whose four fields are all truthy and whose
`nombre` is a string of fewer than 3 UTF-16 code units (`nombre.length < 3`) is
answered with status 400 and the reason 'El nombre debe tener al menos 3
caracteres', and no store call is made. -/
theorem postReservas_nombre_corto (rt : Runtime) (store : Store) (req : Request) (s : String)
    (h1 : camposPresentes req = true)
    (hn : lookupProp req.body "nombre" = .string s)
    (hlen : utf16Length s < 3) :
    (postReservas rt store req).response.status = 400 ∧
      (postReservas rt store req).response.body =
        .object [("error", .string "El nombre debe tener al menos 3 caracteres")] ∧
      (postReservas rt store req).calls = [] := by
  have h2 : nombreMenorQueTres rt req = .ok true := by
    rw [nombreMenorQueTres_string rt req s hn]
    simp [hlen]
  simp [postReservas, postReservasTry_eq, h1, h2, catchAll, nombreCorto, errorBody]

/-- C2, amended, at the name 'Al' with the other fields valid. -/
theorem postReservas_nombre_corto_witness :
    camposPresentes (cuerpo "Al" "2099-01-01" "10:00" "Corte") = true ∧
      utf16Length "Al" < 3 ∧
      (postReservas (runtimeFijo 1710090000000 0) storeCaido
        (cuerpo "Al" "2099-01-01" "10:00" "Corte")).response.status = 400 ∧
      (postReservas (runtimeFijo 1710090000000 0) storeCaido
        (cuerpo "Al" "2099-01-01" "10:00" "Corte")).response.body =
        .object [("error", .string "El nombre debe tener al menos 3 caracteres")] ∧
      (postReservas (runtimeFijo 1710090000000 0) storeCaido
        (cuerpo "Al" "2099-01-01" "10:00" "Corte")).calls = [] :=
  ⟨by decide, by decide,
    postReservas_nombre_corto (runtimeFijo 1710090000000 0) storeCaido
      (cuerpo "Al" "2099-01-01" "10:00" "Corte") "Al" (by decide) rfl (by decide)⟩

/-- Counting code units, not characters: a name of two characters, one of
them outside the Basic Multilingual Plane, has `length` 3 and passes check 2. -/
theorem nombre_dos_caracteres_pasa :
    ("😀a".data.length = 2) ∧ utf16Length "😀a" = 3 ∧
      nombreMenorQueTres (runtimeFijo 1710090000000 0)
        (cuerpo "😀a" "2099-01-01" "10:00" "Corte") = .ok false :=
  ⟨by decide, by decide, rfl⟩

/-! ## C3: a past date -/

/-- The date-only rule yields midnight UTC of a day: a multiple of `msPerDay`. -/
theorem parseDateOnly_midnight (s : String) (t : Int) (hp : parseDateOnly s = some t) :
    ∃ d : Int, t = d * msPerDay := by
  unfold parseDateOnly at hp
  split at hp
  · split at hp
    · simp only at hp
      split at hp
      · exact ⟨_, (Option.some.inj hp).symm⟩
      · exact absurd hp (by simp)
    · exact absurd hp (by simp)
  · exact absurd hp (by simp)

/-- Check 3 on a string that `Date.parse` maps to the time value `t`. -/
theorem fechaAntesDeHoy_string (rt : Runtime) (req : Request) (s : String) (t : Option Int)
    (hf : lookupProp req.body "fecha" = .string s) (hp : dateParse rt s = t) :
    fechaAntesDeHoy rt req = .ok (dateLt t (some (hoy rt))) := by
  unfold fechaAntesDeHoy
  rw [hf]
  simp only [newDate, hp]

/-- A date-only string is parsed by the date-only rule, whatever the fallback. -/
theorem dateParse_dateOnly (rt : Runtime) (s : String) (t : Int)
    (hp : parseDateOnly s = some t) : dateParse rt s = some t := by
  unfold dateParse
  rw [hp]

/-- C3 as stated fails: on 10 March 2024 the date '2000-01-01' is in the past,
but the name 'Al' is too short, and the reason returned is 'El nombre debe
tener al menos 3 caracteres', not 'No puedes hacer reservas en fechas
pasadas'. -/
theorem fecha_pasada_nombre_corto_counterexample :
    parseDateOnly "2000-01-01" = some (10957 * msPerDay) ∧
      10957 < localDay (runtimeFijo 1710090000000 0) ∧
      (postReservas (runtimeFijo 1710090000000 0) storeCaido
        (cuerpo "Al" "2000-01-01" "10:00" "Corte")).response.body =
        .object [("error", .string "El nombre debe tener al menos 3 caracteres")] ∧
      (postReservas (runtimeFijo 1710090000000 0) storeCaido
        (cuerpo "Al" "2000-01-01" "10:00" "Corte")).response.body ≠
        .object [("error", .string "No puedes hacer reservas en fechas pasadas")] := by
  have h : (postReservas (runtimeFijo 1710090000000 0) storeCaido
      (cuerpo "Al" "2000-01-01" "10:00" "Corte")).response.body =
      .object [("error", .string "El nombre debe tener al menos 3 caracteres")] := rfl
  refine ⟨by decide, by decide, h, ?_⟩
  rw [h]
  intro hne
  simp at hne

/-- C3, amended: a create request that passes checks 1 and 2 (four truthy
fields, `nombre.length < 3` false) and whose `fecha` is a date-only string
`YYYY-MM-DD` of a calendar day `d` strictly before the server's local calendar
day is answered with status 400 and the reason 'No puedes hacer reservas en
fechas pasadas', without any store call, at every time of day and for every
time zone adjustment below 24 hours. -/
theorem postReservas_fecha_pasada (rt : Runtime) (store : Store) (req : Request)
    (s : String) (d : Int)
    (htz : ∀ t isUTC, rt.localTZA t isUTC < msPerDay)
    (h1 : camposPresentes req = true)
    (h2 : nombreMenorQueTres rt req = .ok false)
    (hf : lookupProp req.body "fecha" = .string s)
    (hp : parseDateOnly s = some (d * msPerDay))
    (hd : d < localDay rt) :
    (postReservas rt store req).response.status = 400 ∧
      (postReservas rt store req).response.body =
        .object [("error", .string "No puedes hacer reservas en fechas pasadas")] ∧
      (postReservas rt store req).calls = [] := by
  have hlt : d * msPerDay < hoy rt := by
    have hz := htz (localDay rt * msPerDay) false
    have hms : msPerDay = 86400000 := rfl
    unfold hoy
    simp only
    rw [hms] at hz ⊢
    omega
  have h3 : fechaAntesDeHoy rt req = .ok true := by
    rw [fechaAntesDeHoy_string rt req s _ hf (dateParse_dateOnly rt s _ hp)]
    simp [dateLt, hlt]
  simp [postReservas, postReservasTry_eq, h1, h2, h3, catchAll, fechaPasada, errorBody]

/-- C3, amended, at 10 March 2024, 17:00 UTC, on a server two hours east of
UTC, for the date '2024-03-09'. -/
theorem postReservas_fecha_pasada_witness :
    (∀ t isUTC, (runtimeFijo 1710090000000 7200000).localTZA t isUTC < msPerDay) ∧
      camposPresentes (cuerpo "Juan Perez" "2024-03-09" "10:00" "Corte") = true ∧
      nombreMenorQueTres (runtimeFijo 1710090000000 7200000)
        (cuerpo "Juan Perez" "2024-03-09" "10:00" "Corte") = .ok false ∧
      parseDateOnly "2024-03-09" = some (19791 * msPerDay) ∧
      19791 < localDay (runtimeFijo 1710090000000 7200000) ∧
      (postReservas (runtimeFijo 1710090000000 7200000) storeCaido
        (cuerpo "Juan Perez" "2024-03-09" "10:00" "Corte")).response.status = 400 ∧
      (postReservas (runtimeFijo 1710090000000 7200000) storeCaido
        (cuerpo "Juan Perez" "2024-03-09" "10:00" "Corte")).response.body =
        .object [("error", .string "No puedes hacer reservas en fechas pasadas")] ∧
      (postReservas (runtimeFijo 1710090000000 7200000) storeCaido
        (cuerpo "Juan Perez" "2024-03-09" "10:00" "Corte")).calls = [] :=
  ⟨fun _ _ => (by decide : (7200000 : Int) < 86400000), by decide, rfl, by decide, by decide,
    postReservas_fecha_pasada (runtimeFijo 1710090000000 7200000) storeCaido
      (cuerpo "Juan Perez" "2024-03-09" "10:00" "Corte") "2024-03-09" 19791
      (fun _ _ => (by decide : (7200000 : Int) < 86400000)) (by decide) rfl rfl (by decide)
      (by decide)⟩

/-! ## C4: today's date -/

/-- Check 3 on today's date given as a date-only string: the request is
rejected exactly when the zone adjustment at local midnight is negative, that
is on a server west of UTC. -/
theorem fechaAntesDeHoy_hoy (rt : Runtime) (req : Request) (s : String)
    (hf : lookupProp req.body "fecha" = .string s)
    (hp : parseDateOnly s = some (localDay rt * msPerDay)) :
    fechaAntesDeHoy rt req =
      .ok (decide (rt.localTZA (localDay rt * msPerDay) false < 0)) := by
  rw [fechaAntesDeHoy_string rt req s _ hf (dateParse_dateOnly rt s _ hp)]
  simp only [dateLt, hoy]
  congr 1
  simp only [decide_eq_decide]
  omega

/-- C4 (code bug): on a server five hours west of UTC, at noon local time of
10 March 2024, a create request with valid fields and today's date
'2024-03-10' is rejected with 'No puedes hacer reservas en fechas pasadas':
the date-only string is midnight UTC, five hours before the local midnight it
is compared with. -/
theorem postReservas_hoy_rechazada_oeste :
    parseDateOnly "2024-03-10" = some (localDay runtimeOeste * msPerDay) ∧
      camposPresentes (cuerpo "Juan Perez" "2024-03-10" "10:00" "Corte") = true ∧
      nombreMenorQueTres runtimeOeste (cuerpo "Juan Perez" "2024-03-10" "10:00" "Corte")
        = .ok false ∧
      (postReservas runtimeOeste (tablaStore [])
        (cuerpo "Juan Perez" "2024-03-10" "10:00" "Corte")).response.status = 400 ∧
      (postReservas runtimeOeste (tablaStore [])
        (cuerpo "Juan Perez" "2024-03-10" "10:00" "Corte")).response.body =
        .object [("error", .string "No puedes hacer reservas en fechas pasadas")] ∧
      (postReservas runtimeOeste (tablaStore [])
        (cuerpo "Juan Perez" "2024-03-10" "10:00" "Corte")).calls = [] :=
  ⟨by decide, by decide, rfl, rfl, rfl, rfl⟩

/-! ## C10: a date that does not parse -/

/-- C10: a create request whose four fields are truthy, whose `nombre` is a
string of at least 3 code units and whose `fecha` is a string that `Date.parse`
does not read (an Invalid Date) is not rejected by the date check, and the row
`{ nombre, fecha, hora, servicio }` with that unparsed `fecha` is submitted to
the store's insert. -/
theorem postReservas_fecha_invalida (rt : Runtime) (store : Store) (req : Request)
    (n s : String)
    (h1 : camposPresentes req = true)
    (hn : lookupProp req.body "nombre" = .string n)
    (hlen : 3 ≤ utf16Length n)
    (hf : lookupProp req.body "fecha" = .string s)
    (hp : dateParse rt s = none) :
    fechaAntesDeHoy rt req = .ok false ∧
      (postReservas rt store req).calls =
        [.insertSelect "reservas"
          [.object [("nombre", .string n), ("fecha", .string s),
            ("hora", lookupProp req.body "hora"),
            ("servicio", lookupProp req.body "servicio")]]] := by
  have h2 : nombreMenorQueTres rt req = .ok false := by
    rw [nombreMenorQueTres_string rt req n hn]
    simp
    omega
  have h3 : fechaAntesDeHoy rt req = .ok false := by
    rw [fechaAntesDeHoy_string rt req s _ hf hp]
    rfl
  refine ⟨h3, ?_⟩
  have hcalls := ((insert_sii_validacion rt store req).2 ⟨h1, h2, h3⟩)
  rw [hcalls, insertDe, hn, hf]
  rfl

/-- C10 at `fecha = 'not-a-date'`. -/
theorem postReservas_fecha_invalida_witness :
    camposPresentes (cuerpo "Juan Perez" "not-a-date" "10:00" "Corte") = true ∧
      3 ≤ utf16Length "Juan Perez" ∧
      dateParse (runtimeFijo 1710090000000 0) "not-a-date" = none ∧
      fechaAntesDeHoy (runtimeFijo 1710090000000 0)
        (cuerpo "Juan Perez" "not-a-date" "10:00" "Corte") = .ok false ∧
      (postReservas (runtimeFijo 1710090000000 0) (tablaStore [])
        (cuerpo "Juan Perez" "not-a-date" "10:00" "Corte")).calls =
        [.insertSelect "reservas"
          [.object [("nombre", .string "Juan Perez"), ("fecha", .string "not-a-date"),
            ("hora", .string "10:00"), ("servicio", .string "Corte")]]] :=
  ⟨by decide, by decide, by decide,
    postReservas_fecha_invalida (runtimeFijo 1710090000000 0) (tablaStore [])
      (cuerpo "Juan Perez" "not-a-date" "10:00" "Corte") "Juan Perez" "not-a-date"
      (by decide) rfl (by decide) rfl (by decide)⟩

/-! ## C6: a created reservation -/

/-- C6: a create request that passes the three checks, when the store
resolves the insert without error and returns the inserted row with a non-null
`id`, is answered with status 201 and the body `{ success: true, message,
data }` whose `data` is that row as the store returned it, assigned `id`
included; the insert is the only store call. -/
theorem postReservas_creada (rt : Runtime) (store : Store) (req : Request)
    (row : JsValue) (rest : List JsValue) (count : Option Nat)
    (h1 : camposPresentes req = true)
    (h2 : nombreMenorQueTres rt req = .ok false)
    (h3 : fechaAntesDeHoy rt req = .ok false)
    (hs : store (insertDe req) =
      .resolved { data := some (row :: rest), error := none, count := count })
    (hid : row.get "id" ≠ .null ∧ row.get "id" ≠ .undefined) :
    (postReservas rt store req).response.status = 201 ∧
      (postReservas rt store req).response.body =
        .object [("success", .bool true),
          ("message", .string "Reserva creada exitosamente"), ("data", row)] ∧
      (postReservas rt store req).response.body.get "success" = .bool true ∧
      (postReservas rt store req).response.body.get "data" = row ∧
      ((postReservas rt store req).response.body.get "data").get "id" ≠ .null ∧
      ((postReservas rt store req).response.body.get "data").get "id" ≠ .undefined ∧
      (postReservas rt store req).calls = [insertDe req] := by
  have hcalls := (insert_sii_validacion rt store req).2 ⟨h1, h2, h3⟩
  have hs2 : store (insertQuery (lookupProp req.body "nombre") (lookupProp req.body "fecha")
      (lookupProp req.body "hora") (lookupProp req.body "servicio")) =
      .resolved { data := some (row :: rest), error := none, count := count } := hs
  have hresp : (postReservas rt store req).response =
      { status := 201,
        body := .object [("success", .bool true),
          ("message", .string "Reserva creada exitosamente"), ("data", row)] } := by
    simp [postReservas, postReservasTry_eq, h1, h2, h3, catchAll, insertarReserva, hs2, firstRow]
  have hdata : (JsValue.object [("success", .bool true),
      ("message", .string "Reserva creada exitosamente"), ("data", row)]).get "data" = row := by
    simp [JsValue.get, lookupProp, List.find?]
  rw [hresp]
  refine ⟨rfl, rfl, ?_, hdata, ?_, ?_, hcalls⟩
  · simp [JsValue.get, lookupProp, List.find?]
  · simp only [hdata]
    exact hid.1
  · simp only [hdata]
    exact hid.2

/-- C6 at the request `{nombre: 'Juan Perez', fecha: '2099-01-01', hora:
'10:00', servicio: 'Corte'}` on an empty sample store, which assigns `id` 1. -/
theorem postReservas_creada_witness :
    camposPresentes (cuerpo "Juan Perez" "2099-01-01" "10:00" "Corte") = true ∧
      (postReservas (runtimeFijo 1710090000000 0) (tablaStore [])
        (cuerpo "Juan Perez" "2099-01-01" "10:00" "Corte")).response.status = 201 ∧
      (postReservas (runtimeFijo 1710090000000 0) (tablaStore [])
        (cuerpo "Juan Perez" "2099-01-01" "10:00" "Corte")).response.body.get "data" =
        reserva 1 "Juan Perez" "2099-01-01" "10:00" "Corte" ∧
      ((postReservas (runtimeFijo 1710090000000 0) (tablaStore [])
        (cuerpo "Juan Perez" "2099-01-01" "10:00" "Corte")).response.body.get "data").get "id" ≠
        .null :=
  have h := postReservas_creada (runtimeFijo 1710090000000 0) (tablaStore [])
    (cuerpo "Juan Perez" "2099-01-01" "10:00" "Corte")
    (reserva 1 "Juan Perez" "2099-01-01" "10:00" "Corte") [] none
    (by decide) rfl rfl rfl
    ⟨fun h => JsValue.noConfusion h, fun h => JsValue.noConfusion h⟩
  ⟨by decide, h.1, h.2.2.2.1, h.2.2.2.2.1⟩

/-! ## C7: the two tiers of errors -/

/-- C7: in the list, create and delete handlers, a store call that resolves
with an error object is answered with status 400 and `{ error }` holding the
store's message, and anything thrown while the request is handled (a store
call that rejects included) is answered with status 500 and the fixed body
`{ error: 'Error interno del servidor' }`, in which nothing of the thrown
value appears. -/
theorem errores_en_dos_niveles (rt : Runtime) (store : Store) (req : Request) :
    ((∀ data error count, store listQuery = .resolved ⟨data, some error, count⟩ →
        (getReservas store).response =
          { status := 400, body := .object [("error", .string error.message)] }) ∧
      (∀ thrown, (getReservasTry store).2 = .error thrown →
        (getReservas store).response =
          { status := 500, body := .object [("error", .string "Error interno del servidor")] }) ∧
      (∀ reason, store listQuery = .rejected reason →
        (getReservasTry store).2 = .error reason)) ∧
    ((∀ data error count, camposPresentes req = true → nombreMenorQueTres rt req = .ok false →
        fechaAntesDeHoy rt req = .ok false →
        store (insertDe req) = .resolved ⟨data, some error, count⟩ →
        (postReservas rt store req).response =
          { status := 400, body := .object [("error", .string error.message)] }) ∧
      (∀ thrown, (postReservasTry rt store req).2 = .error thrown →
        (postReservas rt store req).response =
          { status := 500, body := .object [("error", .string "Error interno del servidor")] }) ∧
      (∀ reason, camposPresentes req = true → nombreMenorQueTres rt req = .ok false →
        fechaAntesDeHoy rt req = .ok false →
        store (insertDe req) = .rejected reason →
        (postReservasTry rt store req).2 = .error reason)) ∧
    ((∀ data error count,
        store (deleteQuery (lookupProp req.params "id")) = .resolved ⟨data, some error, count⟩ →
        (deleteReserva store req).response =
          { status := 400, body := .object [("error", .string error.message)] }) ∧
      (∀ thrown, (deleteReservaTry store req).2 = .error thrown →
        (deleteReserva store req).response =
          { status := 500, body := .object [("error", .string "Error interno del servidor")] }) ∧
      (∀ reason, store (deleteQuery (lookupProp req.params "id")) = .rejected reason →
        (deleteReservaTry store req).2 = .error reason)) := by
  refine ⟨⟨?_, ?_, ?_⟩, ⟨?_, ?_, ?_⟩, ⟨?_, ?_, ?_⟩⟩
  · intro data error count hs
    simp [getReservas, getReservasTry, hs, catchAll, errorBody]
  · intro thrown ht
    simp [getReservas, catchAll, ht, internalError, errorBody]
  · intro reason hs
    simp [getReservasTry, hs]
  · intro data error count h1 h2 h3 hs
    have hs2 : store (insertQuery (lookupProp req.body "nombre") (lookupProp req.body "fecha")
        (lookupProp req.body "hora") (lookupProp req.body "servicio")) =
        .resolved ⟨data, some error, count⟩ := hs
    simp [postReservas, postReservasTry_eq, h1, h2, h3, insertarReserva, hs2, catchAll, errorBody]
  · intro thrown ht
    simp [postReservas, catchAll, ht, internalError, errorBody]
  · intro reason h1 h2 h3 hs
    have hs2 : store (insertQuery (lookupProp req.body "nombre") (lookupProp req.body "fecha")
        (lookupProp req.body "hora") (lookupProp req.body "servicio")) = .rejected reason := hs
    simp [postReservasTry_eq, h1, h2, h3, insertarReserva, hs2]
  · intro data error count hs
    simp [deleteReserva, deleteReservaTry, hs, catchAll, errorBody]
  · intro thrown ht
    simp [deleteReserva, catchAll, ht, internalError, errorBody]
  · intro reason hs
    simp [deleteReservaTry, hs]

/-- C7 on the list handler: a store that answers with the error 'permission
denied for table reservas' gives 400 with that message, and an unreachable
store gives the fixed 500. -/
theorem errores_en_dos_niveles_witness :
    (getReservas (storeConError "permission denied for table reservas")).response =
        { status := 400,
          body := .object [("error", .string "permission denied for table reservas")] } ∧
      (getReservas storeCaido).response =
        { status := 500, body := .object [("error", .string "Error interno del servidor")] } ∧
      (deleteReserva storeCaido { body := [], params := [("id", .string "7")] }).response =
        { status := 500, body := .object [("error", .string "Error interno del servidor")] } :=
  ⟨(errores_en_dos_niveles (runtimeFijo 1710090000000 0)
      (storeConError "permission denied for table reservas")
      { body := [], params := [] }).1.1 none
      { message := "permission denied for table reservas" } none rfl,
    (errores_en_dos_niveles (runtimeFijo 1710090000000 0) storeCaido
      { body := [], params := [] }).1.2.1 (.string "fetch failed") rfl,
    (errores_en_dos_niveles (runtimeFijo 1710090000000 0) storeCaido
      { body := [], params := [("id", .string "7")] }).2.2.2.1 (.string "fetch failed") rfl⟩

/-! ## C8: the connectivity probe -/

/-- The probe reports the number of rows in the `data` array of the reply;
the `count` of the reply is not read. -/
theorem getTest_total (store : Store) (rows : List JsValue) (count : Option Nat)
    (hs : store countQuery = .resolved { data := some rows, error := none, count := count }) :
    (getTest store).response =
      { status := 200,
        body := .object [("success", .bool true),
          ("message", .string "Conexión con Supabase exitosa"),
          ("totalReservas", .number (.finite rows.length))] } ∧
      (getTest store).calls = [.selectCounted "reservas" "count" "exact"] := by
  have hs2 : store (.selectCounted "reservas" "count" "exact") =
      .resolved { data := some rows, error := none, count := count } := hs
  simp [getTest, getTestTry, countQuery, hs2, catchAll, dataLength]

/-- C8 (code bug): on a store holding three reservations, whose count query
succeeds with the aggregate row `[{ count: 3 }]` and the exact count 3, the
probe answers status 200, `success: true` and `totalReservas: 1`: it reports
the length of the reply's `data`, not the number of reservations. -/
theorem getTest_total_uno_con_tres_reservas :
    tresReservas.length = 3 ∧
      tablaStore tresReservas countQuery =
        .resolved
          { data := some [.object [("count", .number (.finite (3 : Nat)))]]
            error := none, count := some 3 } ∧
      (getTest (tablaStore tresReservas)).response.status = 200 ∧
      (getTest (tablaStore tresReservas)).response.body =
        .object [("success", .bool true),
          ("message", .string "Conexión con Supabase exitosa"),
          ("totalReservas", .number (.finite (1 : Nat)))] :=
  ⟨rfl, rfl, rfl, rfl⟩

/-! ## C9: the list -/

/-- C9: the list handler makes one store call, the select of all columns of
`reservas` ordered by `fecha` ascending, and when the store resolves it
without error the answer is status 200 with `{ success: true, data }` where
`data` is the store's sequence of rows unchanged.  So for a store that
honours the order request on records with distinct dates (its rows are the
records, in ascending `fecha` order), `data` holds all the records in strictly
ascending order of `fecha`. -/
theorem getReservas_ordenadas (store : Store) (records rows : List JsValue)
    (count : Option Nat) (fechaDe : JsValue → Int)
    (hdistinct : (records.map fechaDe).Nodup)
    (hs : store listQuery = .resolved { data := some rows, error := none, count := count })
    (hperm : rows.Perm records)
    (hsorted : rows.Pairwise fun a b => fechaDe a ≤ fechaDe b) :
    (getReservas store).calls = [.selectOrdered "reservas" "*" "fecha" true] ∧
      (getReservas store).response.status = 200 ∧
      (getReservas store).response.body =
        .object [("success", .bool true), ("data", .array rows)] ∧
      ∃ out, (getReservas store).response.body.get "data" = .array out ∧
        out.Perm records ∧ out.length = records.length ∧
        out.Pairwise fun a b => fechaDe a < fechaDe b := by
  have hs2 : store (.selectOrdered "reservas" "*" "fecha" true) =
      .resolved { data := some rows, error := none, count := count } := hs
  have hresp : (getReservas store).response =
      { status := 200, body := .object [("success", .bool true), ("data", .array rows)] } := by
    simp [getReservas, getReservasTry, listQuery, hs2, catchAll, dataValue]
  have hcalls : (getReservas store).calls = [.selectOrdered "reservas" "*" "fecha" true] := by
    simp [getReservas, getReservasTry, listQuery, hs2, catchAll]
  have hnodup : (rows.map fechaDe).Nodup := (hperm.map fechaDe).nodup_iff.2 hdistinct
  have hne : rows.Pairwise fun a b => fechaDe a ≠ fechaDe b := List.pairwise_map.1 hnodup
  have hstrict : rows.Pairwise fun a b => fechaDe a < fechaDe b :=
    hsorted.imp₂ (fun _ _ hle hab => lt_of_le_of_ne hle hab) hne
  refine ⟨hcalls, ?_, ?_, rows, ?_, hperm, hperm.length_eq, hstrict⟩
  · rw [hresp]
  · rw [hresp]
  · rw [hresp]
    simp [JsValue.get, lookupProp, List.find?]

/-- C9 on the sample store holding three reservations out of date order. -/
theorem getReservas_ordenadas_witness :
    ((tresReservas.map fechaOrden).Nodup) ∧
      (getReservas (tablaStore tresReservas)).response.status = 200 ∧
      (getReservas (tablaStore tresReservas)).response.body =
        .object [("success", .bool true),
          ("data", .array
            [reserva 2 "Ana Ruiz" "2099-01-01" "11:00" "Tinte",
             reserva 3 "Luis Mora" "2099-01-02" "12:00" "Corte",
             reserva 1 "Juan Perez" "2099-01-03" "10:00" "Corte"])] :=
  have h := getReservas_ordenadas (tablaStore tresReservas) tresReservas
    [reserva 2 "Ana Ruiz" "2099-01-01" "11:00" "Tinte",
     reserva 3 "Luis Mora" "2099-01-02" "12:00" "Corte",
     reserva 1 "Juan Perez" "2099-01-03" "10:00" "Corte"]
    none fechaOrden (by decide) rfl
    (((List.Perm.swap _ _ []).cons _).trans (List.Perm.swap _ _ _))
    (by decide)
  ⟨by decide, h.2.1, h.2.2.1⟩

end ReserBot
